import Mathlib

/-!
Verification of the LinkedIn lead-monitor qualification core.

The development shallowly embeds the relevant parts of
scraper_linkedin.py and database.py:

* Python strings are embedded as lists of Unicode code points
  (abbrev PyStr), so that lowercasing and substring containment match
  the Python semantics on the ASCII data the program handles.
* The classifier response dictionary is embedded as an association
  list of JSON values (JObj).  List-valued fields in the responses the
  program produces or inspects are lists of strings, so the JSON value
  type carries a string-list constructor instead of a nested list.
* The module-level mutable guard variables (circuit breaker, daily
  call counter, per-run cost accumulator) are collected into an
  explicit GptState record; each source function becomes a function on
  that record.  A raised Python exception is embedded as an Except
  error value.
* The outcome of one attempted call to the external classification
  service (network plus JSON parse) is an environment value of type
  GptAttempt supplied to the embedded retry loop; the prompt text that
  the source builds and sends is consumed only by that external
  service and is therefore not part of the state.
* The sqlite store is embedded as a DB record of row lists; the
  UNIQUE constraints of init_database become the membership tests that
  INSERT OR IGNORE performs.
-/

set_option maxRecDepth 4000

namespace LeadMonitor

/-- A Python string, as its list of Unicode code points. -/
abbrev PyStr := List Nat

/-- Convert a Lean string literal to its code-point list. -/
def pyOfString (s : String) : PyStr := s.data.map Char.toNat

/-- Lowercase one code point exactly as Python str.lower does on ASCII. -/
def lowerCp (c : Nat) : Nat := if 65 ≤ c ∧ c ≤ 90 then c + 32 else c

/-- Embedding of Python str.lower on the ASCII data the program handles. -/
def pyLower (s : PyStr) : PyStr := s.map lowerCp

/-- Boolean test that the first list is a leading segment of the second. -/
def pyStartsWith : PyStr → PyStr → Bool
  | [], _ => true
  | _ :: _, [] => false
  | a :: as, b :: bs => a == b && pyStartsWith as bs

/-- Embedding of the Python substring operator needle in haystack. -/
def pyIn (needle : PyStr) (hay : PyStr) : Bool :=
  pyStartsWith needle hay ||
    match hay with
    | [] => false
    | _ :: t => pyIn needle t

/-- The ASCII whitespace code points that Python str.strip removes. -/
def isPySpace (c : Nat) : Bool :=
  c == 32 || c == 9 || c == 10 || c == 13 || c == 11 || c == 12

/-- Embedding of Python str.strip with no argument. -/
def pyStrip (s : PyStr) : PyStr :=
  ((s.dropWhile isPySpace).reverse.dropWhile isPySpace).reverse

/-- Embedding of Python strip applied to the double-quote character,
as in keyword.strip in detect_matched_filters. -/
def stripQuotes (s : PyStr) : PyStr :=
  ((s.dropWhile (fun c => c == 34)).reverse.dropWhile (fun c => c == 34)).reverse

/-- ASCII word character for the regex word boundary used by the
company-extraction pattern. -/
def isWordChar (c : Nat) : Bool :=
  (48 ≤ c && c ≤ 57) || (65 ≤ c && c ≤ 90) || (97 ≤ c && c ≤ 122) || c == 95

/-- A JSON value occurring in a classifier response.  The list values
the program produces or inspects are lists of strings. -/
inductive JVal where
  | jbool (b : Bool)
  | jint (n : Int)
  | jstr (s : String)
  | jstrList (l : List String)
deriving DecidableEq

/-- A parsed JSON object: an ordered association list, like a dict. -/
abbrev JObj := List (String × JVal)

/-- Dictionary lookup, returning the value at the first matching key. -/
def jget (o : JObj) (k : String) : Option JVal :=
  (o.find? (fun p => p.1 == k)).map (fun p => p.2)

/-- Python truthiness of a JSON value, used by dict.get consumers. -/
def jTruthy : JVal → Bool
  | .jbool b => b
  | .jint n => !(n == 0)
  | .jstr s => !(s == "")
  | .jstrList l => !l.isEmpty

/-- Source: validate_gpt_response.  The confidence score arrives as a
number; the numeric values the program handles are embedded as
integers. -/
def validate_gpt_response (r : JObj) : Bool :=
  [ "is_genuine_lead", "confidence_score", "lead_quality", "hiring_type",
    "reasoning"].all (fun f => (jget r f).isSome) &&
  (match jget r "is_genuine_lead" with
    | some (.jbool _) => true
    | _ => false) &&
  (match jget r "confidence_score" with
    | some (.jint n) => decide (0 ≤ n) && decide (n ≤ 100)
    | _ => false) &&
  (match jget r "lead_quality" with
    | some (.jstr s) => s == "hot" || s == "warm" || s == "cold"
    | _ => false) &&
  (match jget r "hiring_type" with
    | some (.jstr s) => s == "agency" || s == "in-house" || s == "unclear"
    | _ => false) &&
  (match jget r "reasoning" with
    | some (.jstr s) => decide (10 ≤ s.length)
    | _ => false)

/-- Source: create_fallback_response. -/
def create_fallback_response (reason : String) : JObj :=
  [ ( "is_genuine_lead", JVal.jbool true),
    ( "confidence_score", JVal.jint 50),
    ( "lead_quality", JVal.jstr "warm"),
    ( "hiring_type", JVal.jstr "unclear"),
    ( "reasoning", JVal.jstr ( "GPT analysis unavailable: " ++ reason)),
    ( "urgency_indicators", JVal.jstrList []),
    ( "industry_match", JVal.jstr "unknown"),
    ( "target_role_match", JVal.jbool false),
    ( "budget_mentions", JVal.jstrList []),
    ( "red_flags", JVal.jstrList [ "GPT analysis unavailable"])]

/-- The module-level mutable guard state of scraper_linkedin.py:
circuit breaker, daily call counter and per-run cost accumulator.
Dates are abstracted as natural numbers.  Dollar amounts are carried
in nano-dollars (the dollar value scaled by ten to the ninth), which
makes every per-token rate of the source a whole number and keeps the
cost arithmetic exact. -/
structure GptState where
  failureCount : Nat
  circuitActive : Bool
  threshold : Nat
  dailyCount : Nat
  dailyLimit : Nat
  lastResetDate : Option Nat
  runCost : Nat
  runCostLimit : Nat
deriving DecidableEq

/-- The initial values of the module-level guard globals; the cost
limit is five dollars in nano-dollars. -/
def initialGptState : GptState :=
  { failureCount := 0
    circuitActive := false
    threshold := 5
    dailyCount := 0
    dailyLimit := 1000
    lastResetDate := none
    runCost := 0
    runCostLimit := 5000000000 }

/-- Source: GPT_MODEL_COSTS, per-token input and output rates in
nano-dollars: 2.50 and 10.00 dollars per million tokens for gpt-4o,
0.15 and 0.60 for gpt-4o-mini. -/
def GPT_MODEL_COSTS : List (String × Nat × Nat) :=
  [ ( "gpt-4o", (2500, 10000)),
    ( "gpt-4o-mini", (150, 600))]

/-- Source: track_gpt_cost.  An unknown model is not tracked; a known
model adds the call cost to the run accumulator and raises (an Except
error) when the accumulated cost exceeds the per-run limit.  The
numeric formatting inside the raised message is elided. -/
def track_gpt_cost (s : GptState) (model : String)
    (inputTokens outputTokens : Nat) : Except String Nat × GptState :=
  match GPT_MODEL_COSTS.find? (fun p => p.1 == model) with
  | none => (Except.ok 0, s)
  | some rates =>
    let callCost : Nat := inputTokens * rates.2.1 + outputTokens * rates.2.2
    let s1 := { s with runCost := s.runCost + callCost }
    if s1.runCostLimit < s1.runCost then
      (Except.error "Cost limit exceeded", s1)
    else
      (Except.ok callCost, s1)

/-- Source: reset_gpt_circuit_breaker. -/
def reset_gpt_circuit_breaker (s : GptState) : GptState :=
  { s with failureCount := 0, circuitActive := false }

/-- Source: check_gpt_circuit_breaker.  Returns whether calls are
blocked, latching the active flag when the threshold is reached. -/
def check_gpt_circuit_breaker (s : GptState) : Bool × GptState :=
  if s.threshold ≤ s.failureCount then (true, { s with circuitActive := true })
  else (false, s)

/-- Source: record_gpt_failure. -/
def record_gpt_failure (s : GptState) : GptState :=
  { s with failureCount := s.failureCount + 1 }

/-- Source: check_daily_gpt_limit.  Resets the counter on a date
change, then reports whether the daily limit is reached. -/
def check_daily_gpt_limit (s : GptState) (today : Nat) : Bool × GptState :=
  let s1 :=
    if s.lastResetDate ≠ some today then
      { s with dailyCount := 0, lastResetDate := some today }
    else s
  if s1.dailyLimit ≤ s1.dailyCount then (true, s1) else (false, s1)

/-- Source: record_gpt_call. -/
def record_gpt_call (s : GptState) : GptState :=
  { s with dailyCount := s.dailyCount + 1 }

/-- The configuration dictionary entries the qualification core reads.
A none field stands for a key absent from config.json. -/
structure Config where
  keywords : List PyStr := []
  job_titles : List PyStr := []
  industries : List PyStr := []
  pr_indicators : Option (List PyStr) := none
  gpt_model : Option String := none
deriving DecidableEq

/-- The outcome of one attempted call to the classification service:
a parsed JSON response with its token usage, a JSON parse failure, or
an exception from the API call carrying its message.  The rate-limit
message test in the source only inserts a sleep and so does not touch
the modelled state. -/
inductive GptAttempt where
  | response (resp : JObj) (promptTokens completionTokens : Nat)
  | badJson
  | apiError (msg : String)
deriving DecidableEq

/-- The retry loop of analyze_lead_with_gpt over the environment list
of per-attempt outcomes (the source runs exactly three attempts, so
the list passed in has length three and the last element corresponds
to attempt == max_retries - 1).  Returns the resulting response, the
new guard state, and the number of classifier calls performed.  A
validated response is costed, resets the breaker and records the daily
call; a raised cost-limit exception is caught by the same generic
handler as an API error and consumes a retry.  The empty-list case is
the unreachable return after the loop. -/
def gptLoop (model : String) (s : GptState) :
    List GptAttempt → JObj × GptState × Nat
  | [] => (create_fallback_response "Unexpected retry loop exit", s, 0)
  | GptAttempt.response resp pTok cTok :: rest =>
    if validate_gpt_response resp then
      match track_gpt_cost s model pTok cTok with
      | (Except.ok _, s1) =>
        (resp, record_gpt_call (reset_gpt_circuit_breaker s1), 1)
      | (Except.error e, s1) =>
        let s2 := record_gpt_failure s1
        if rest.isEmpty then
          (create_fallback_response ( "API error after 3 attempts: " ++ e), s2, 1)
        else
          let r := gptLoop model s2 rest
          (r.1, r.2.1, r.2.2 + 1)
    else
      let s2 := record_gpt_failure s
      if rest.isEmpty then
        (create_fallback_response
          "API error after 3 attempts: GPT response failed validation", s2, 1)
      else
        let r := gptLoop model s2 rest
        (r.1, r.2.1, r.2.2 + 1)
  | GptAttempt.badJson :: rest =>
    let s2 := record_gpt_failure s
    if rest.isEmpty then
      (create_fallback_response "Invalid JSON after 3 attempts", s2, 1)
    else
      let r := gptLoop model s2 rest
      (r.1, r.2.1, r.2.2 + 1)
  | GptAttempt.apiError msg :: rest =>
    let s2 := record_gpt_failure s
    if rest.isEmpty then
      (create_fallback_response ( "API error after 3 attempts: " ++ msg), s2, 1)
    else
      let r := gptLoop model s2 rest
      (r.1, r.2.1, r.2.2 + 1)

/-- Source: analyze_lead_with_gpt.  The prompt built from the post
text and author fields is consumed by the external service, whose
behaviour on the three attempts is the a1 a2 a3 environment.  The
circuit-breaker check runs first, the daily-limit check second; either
short-circuits to a fallback response before the retry loop. -/
def analyze_lead_with_gpt (s : GptState) (today : Nat) (config : Config)
    (a1 a2 a3 : GptAttempt) : JObj × GptState × Nat :=
  match check_gpt_circuit_breaker s with
  | (true, s1) => (create_fallback_response "Circuit breaker active", s1, 0)
  | (false, s1) =>
    match check_daily_gpt_limit s1 today with
    | (true, s2) => (create_fallback_response "Daily limit reached", s2, 0)
    | (false, s2) =>
      let model := config.gpt_model.getD "gpt-4o-mini"
      gptLoop model s2 [a1, a2, a3]

/-- The three matched-term subsets, source dict keys matched_keywords,
matched_roles, matched_categories. -/
structure FilterMatch where
  matched_keywords : List PyStr
  matched_roles : List PyStr
  matched_categories : List PyStr
deriving DecidableEq

/-- Source: detect_matched_filters. -/
def detect_matched_filters (post_content : PyStr) (author_title : PyStr)
    (config : Config) : FilterMatch :=
  let post_lower := pyLower post_content
  let title_lower := if author_title.isEmpty then [] else pyLower author_title
  { matched_keywords :=
      config.keywords.filter
        (fun keyword => pyIn (pyLower (stripQuotes keyword)) post_lower)
    matched_roles :=
      config.job_titles.filter
        (fun role => pyIn (pyLower role) title_lower || pyIn (pyLower role) post_lower)
    matched_categories :=
      config.industries.filter
        (fun category =>
          pyIn (pyLower category) title_lower || pyIn (pyLower category) post_lower) }

/-- Position test for the pattern word-boundary a t word-boundary
followed by at least one character, applied case-insensitively at
index i of the stripped title: the regex search of
extract_company_from_title.  The captured group needs a character
that the dot can match, so the position after the t must exist and not
be a newline. -/
def atMatchPos (s : PyStr) (i : Nat) : Bool :=
  (decide (i = 0) || !isWordChar (s.getD (i - 1) 0)) &&
  decide (i + 1 < s.length) &&
  (lowerCp (s.getD i 0) == 97) && (lowerCp (s.getD (i + 1) 0) == 116) &&
  decide (i + 2 < s.length) &&
  !isWordChar (s.getD (i + 2) 0) && !(s.getD (i + 2) 0 == 10)

/-- Leftmost match position of the word at pattern, as re.search
finds it. -/
def findAt (s : PyStr) : Option Nat :=
  (List.range s.length).find? (atMatchPos s)

/-- The segment after the first occurrence of code point c, the second
part of a Python split on c with maxsplit one. -/
def afterFirst (s : PyStr) (c : Nat) : PyStr :=
  (s.dropWhile (fun x => !(x == c))).drop 1

/-- Source: extract_company_from_title.  An absent title is the none
case.  The word at separator is searched first; the captured group is
everything after it up to a newline, stripped.  Otherwise the first
at-sign and then the first pipe are tried as split points. -/
def extract_company_from_title (title : Option PyStr) : Option PyStr :=
  match title with
  | none => none
  | some t0 =>
    if t0.isEmpty then none
    else
      let t := pyStrip t0
      if t.isEmpty then none
      else
        match findAt t with
        | some i => some (pyStrip ((t.drop (i + 2)).takeWhile (fun c => !(c == 10))))
        | none =>
          if t.contains 64 then some (pyStrip (afterFirst t 64))
          else if t.contains 124 then some (pyStrip (afterFirst t 124))
          else none

/-- Nineteen consecutive decimal digits starting at index i. -/
def nineteenDigitsAt (s : PyStr) (i : Nat) : Bool :=
  decide (i + 19 ≤ s.length) &&
  ((s.drop i).take 19).all (fun c => decide (48 ≤ c) && decide (c ≤ 57))

/-- The code points of the literal posts path segment. -/
def slashPosts : PyStr := pyOfString "/posts/"

/-- Candidate hyphen position j for the primary activity-id pattern
anchored at a posts segment starting at p: no slash between the
segment and j, a hyphen at j, nineteen digits after it, then a hyphen
or the end of the string.  The lazy quantifier of the source pattern
makes the smallest such j the match. -/
def postsSegMatch (s : PyStr) (p j : Nat) : Bool :=
  decide (p + 7 ≤ j) && (s.getD j 0 == 45) &&
  ((s.drop (p + 7)).take (j - (p + 7))).all (fun c => !(c == 47)) &&
  nineteenDigitsAt s (j + 1) &&
  (decide (j + 20 = s.length) || (s.getD (j + 20) 0 == 45))

/-- Leftmost match of the primary pattern of extract_activity_id,
returning the captured nineteen digits. -/
def primaryActivityMatch (s : PyStr) : Option PyStr :=
  ((List.range s.length).find?
      (fun p =>
        pyStartsWith slashPosts (s.drop p) &&
        (List.range s.length).any (postsSegMatch s p))).bind
    (fun p =>
      ((List.range s.length).find? (postsSegMatch s p)).map
        (fun j => (s.drop (j + 1)).take 19))

/-- Source: extract_activity_id.  The primary pattern looks inside a
posts path segment; the fallback accepts the leftmost run of nineteen
digits anywhere in the URL. -/
def extract_activity_id (url : PyStr) : Option PyStr :=
  match primaryActivityMatch url with
  | some g => some g
  | none =>
    ((List.range url.length).find? (nineteenDigitsAt url)).map
      (fun i => (url.drop i).take 19)

/-- The engagement-stats sub-dictionary of a post. -/
structure StatsDict where
  likes : Option Nat := none
  comments : Option Nat := none
deriving DecidableEq

/-- A raw post dictionary as the batch processor receives it.  A none
field is an absent key; Python code treats an absent key and a None
value alike everywhere this model observes them. -/
structure RawPostDict where
  activity_id : Option PyStr := none
  post_url : Option PyStr := none
  url : Option PyStr := none
  text : Option PyStr := none
  author_name : Option PyStr := none
  author_title : Option PyStr := none
  timestamp : Option PyStr := none
  hashtags : Option (List PyStr) := none
  stats : Option StatsDict := none
  likes : Option Nat := none
  comments : Option Nat := none
  search_input : Option PyStr := none
deriving DecidableEq

/-- Source: validate_post, presence of the four required fields. -/
def validate_post (p : RawPostDict) : Bool :=
  p.activity_id.isSome && p.post_url.isSome && p.text.isSome && p.author_name.isSome

/-- The normalized lead-data dictionary built by extract_lead_data and
extended by enrich_lead_data and process_post.  The matched-term lists
and the analysis object are JSON-serialized strings in the sqlite row;
the embedding keeps their content.  Keys the pipeline never writes
(author_handle, company_name, budget_mention, created_at) stay none
and are read as None by save_lead. -/
structure LeadDict where
  activity_id : Option PyStr := none
  url : Option PyStr := none
  post_url : Option PyStr := none
  author_name : Option PyStr := none
  author_handle : Option PyStr := none
  author_title : Option PyStr := none
  company_name : Option PyStr := none
  post_content : Option PyStr := none
  posted_at : Option PyStr := none
  budget_mention : Option PyStr := none
  created_at : Option PyStr := none
  hashtags : Option (List PyStr) := none
  stats : Option StatsDict := none
  search_input : Option PyStr := none
  platform : Option PyStr := none
  company : Option (Option PyStr) := none
  matched_keywords : Option (List PyStr) := none
  matched_roles : Option (List PyStr) := none
  matched_categories : Option (List PyStr) := none
  raw_data : Option JObj := none
deriving DecidableEq

/-- Source: extract_lead_data, run on a validated post. -/
def extract_lead_data (p : RawPostDict) : LeadDict :=
  let stats0 := p.stats.getD {}
  let stats1 : StatsDict :=
    { likes := some (stats0.likes.getD (p.likes.getD 0))
      comments := some (stats0.comments.getD (p.comments.getD 0)) }
  { activity_id := some (p.activity_id.getD [])
    url := some (p.post_url.getD [])
    post_url := some (p.post_url.getD [])
    author_name := some (p.author_name.getD (pyOfString "Unknown"))
    author_title := some (p.author_title.getD [])
    post_content := some (p.text.getD [])
    posted_at := some (p.timestamp.getD [])
    hashtags := some (p.hashtags.getD [])
    stats := some stats1
    search_input := some (p.search_input.getD []) }

/-- Source: the default_pr_indicators list of passes_pr_content_filter. -/
def default_pr_indicators : List PyStr :=
  [ pyOfString " pr ", pyOfString "pr agency", pyOfString "pr firm",
    pyOfString "pr partner", pyOfString "pr support", pyOfString "pr help",
    pyOfString "pr consultant", pyOfString "pr freelancer",
    pyOfString "public relations", pyOfString "publicist",
    pyOfString "pr recommendations", pyOfString "pr recs"]

/-- Source: passes_pr_content_filter. -/
def passes_pr_content_filter (p : RawPostDict) (config : Config) : Bool :=
  let post_content := pyLower (p.text.getD [])
  (config.pr_indicators.getD default_pr_indicators).any
    (fun indicator => pyIn indicator post_content)

/-- Source: enrich_lead_data. -/
def enrich_lead_data (lead_data : LeadDict) (config : Config) : LeadDict :=
  let matchRes :=
    detect_matched_filters (lead_data.post_content.getD [])
      (lead_data.author_title.getD []) config
  let company := extract_company_from_title lead_data.author_title
  { lead_data with
    platform := some (pyOfString "linkedin")
    company := some company
    matched_keywords := some matchRes.matched_keywords
    matched_roles := some matchRes.matched_roles
    matched_categories := some matchRes.matched_categories }

/-- Python truthiness of the is_genuine_lead entry, as read by
gpt_analysis.get with default False. -/
def truthyIsLead (v : JObj) : Bool :=
  match jget v "is_genuine_lead" with
  | some x => jTruthy x
  | none => false

/-- Source: process_post.  Returns the enriched lead dictionary when
the post survives validation, the keyword pre-filter and the
classifier verdict, together with the guard state after any classifier
activity. -/
def process_post (p : RawPostDict) (config : Config) (g : GptState)
    (today : Nat) (atts : GptAttempt × GptAttempt × GptAttempt) :
    Option LeadDict × GptState :=
  if !validate_post p then (none, g)
  else
    let lead_data := extract_lead_data p
    if !passes_pr_content_filter p config then (none, g)
    else
      let r := analyze_lead_with_gpt g today config atts.1 atts.2.1 atts.2.2
      if !truthyIsLead r.1 then (none, r.2.1)
      else
        let enriched := enrich_lead_data lead_data config
        (some { enriched with raw_data := some r.1 }, r.2.1)

/-- A row of the activity_ids table. -/
structure ActivityRow where
  platform : String
  activity_id : PyStr
  original_url : Option PyStr
  discovered_at : PyStr
  scraped : Bool
deriving DecidableEq

/-- A row of the leads table, the columns save_lead inserts. -/
structure LeadsRow where
  platform : String
  post_id : PyStr
  author_name : Option PyStr
  author_handle : Option PyStr
  author_title : Option PyStr
  company_name : Option PyStr
  post_content : Option PyStr
  post_url : Option PyStr
  budget_mention : Option PyStr
  created_at : Option PyStr
  scraped_at : PyStr
  matched_keywords : Option (List PyStr)
  matched_roles : Option (List PyStr)
  matched_categories : Option (List PyStr)
  raw_data : Option JObj
deriving DecidableEq

/-- The sqlite store: the leads table with its UNIQUE post_id column
and the activity_ids table with its UNIQUE platform-and-activity_id
pair. -/
structure DB where
  leads : List LeadsRow := []
  activity_ids : List ActivityRow := []
deriving DecidableEq

/-- The membership test the UNIQUE(platform, activity_id) constraint
performs. -/
def hasActivity (db : DB) (platform : String) (aid : PyStr) : Bool :=
  db.activity_ids.any (fun a => a.platform == platform && a.activity_id == aid)

/-- The membership test the UNIQUE post_id constraint performs: the
platform column does not take part. -/
def hasLeadPostId (db : DB) (post_id : PyStr) : Bool :=
  db.leads.any (fun r => r.post_id == post_id)

/-- Whether the activity record for the key exists with its scraped
flag set. -/
def activityScraped (db : DB) (platform : String) (aid : PyStr) : Bool :=
  db.activity_ids.any
    (fun a => a.platform == platform && a.activity_id == aid && a.scraped)

/-- Source: save_activity_id in database.py.  INSERT OR IGNORE against
UNIQUE(platform, activity_id): the insert happens exactly when the key
is absent, and the returned Bool is whether a row was inserted.  The
wall-clock discovery timestamp is the now parameter. -/
def save_activity_id (db : DB) (platform : String) (aid : PyStr)
    (original_url : Option PyStr) (now : PyStr) : Bool × DB :=
  if hasActivity db platform aid then (false, db)
  else
    (true,
      { db with
        activity_ids :=
          db.activity_ids ++
            [{ platform := platform, activity_id := aid,
               original_url := original_url, discovered_at := now,
               scraped := false }] })

/-- Source: mark_activity_scraped in database.py. -/
def mark_activity_scraped (db : DB) (platform : String) (aid : PyStr) : DB :=
  { db with
    activity_ids :=
      db.activity_ids.map
        (fun a =>
          if a.platform == platform && a.activity_id == aid then
            { a with scraped := true }
          else a) }

/-- Source: save_lead in database.py.  INSERT OR IGNORE against the
UNIQUE post_id column alone: a row whose post_id already exists under
any platform is ignored and the function returns false. -/
def save_lead (db : DB) (platform : String) (post_id : PyStr)
    (data : LeadDict) (now : PyStr) : Bool × DB :=
  if hasLeadPostId db post_id then (false, db)
  else
    (true,
      { db with
        leads :=
          db.leads ++
            [{ platform := platform, post_id := post_id,
               author_name := data.author_name,
               author_handle := data.author_handle,
               author_title := data.author_title,
               company_name := data.company_name,
               post_content := data.post_content,
               post_url := data.post_url,
               budget_mention := data.budget_mention,
               created_at := data.created_at,
               scraped_at := now,
               matched_keywords := data.matched_keywords,
               matched_roles := data.matched_roles,
               matched_categories := data.matched_categories,
               raw_data := data.raw_data }] })

/-- Python truthiness of an optional string. -/
def truthyOpt (o : Option PyStr) : Bool :=
  match o with
  | some s => !s.isEmpty
  | none => false

/-- How one batch item fares, mirroring the continue points of the
process_posts_batch loop: id resolution raised (url was None),
no extractable id, duplicate key, filtered out by process_post, or
saved.  No modelled operation raises past analyze_lead_with_gpt, so
the except branch of the loop is reachable only through the None url
TypeError. -/
inductive ItemOutcome where
  | errored
  | skippedNoId
  | duplicate
  | filteredOut
  | saved
deriving DecidableEq

/-- The activity-id resolution at the top of the batch loop: the
explicit field when truthy, otherwise extraction from the first truthy
of post_url and url; re.search on a None url raises TypeError. -/
inductive IdResolution where
  | ok (aid : PyStr)
  | noId
  | typeErr
deriving DecidableEq

/-- The url value the loop computes with the Python or operator. -/
def batchUrl (p : RawPostDict) : Option PyStr :=
  if truthyOpt p.post_url then p.post_url else p.url

/-- Resolve the activity id for one batch item. -/
def resolve_activity_id (p : RawPostDict) : IdResolution :=
  if truthyOpt p.activity_id then IdResolution.ok (p.activity_id.getD [])
  else
    match batchUrl p with
    | none => IdResolution.typeErr
    | some u =>
      match extract_activity_id u with
      | none => IdResolution.noId
      | some aid => IdResolution.ok aid

/-- One iteration of the process_posts_batch loop: register the id,
skip duplicates, normalize the url key, run process_post, and either
mark the item scraped or save the lead and mark it scraped.  Returns
the contribution to processed_count, the new store and guard state,
and the outcome tag. -/
def process_batch_item (config : Config) (now : PyStr) (today : Nat)
    (atts : GptAttempt × GptAttempt × GptAttempt) (p : RawPostDict)
    (db : DB) (g : GptState) : Nat × DB × GptState × ItemOutcome :=
  match resolve_activity_id p with
  | IdResolution.typeErr => (0, db, g, ItemOutcome.errored)
  | IdResolution.noId => (0, db, g, ItemOutcome.skippedNoId)
  | IdResolution.ok aid =>
    let r1 := save_activity_id db "linkedin" aid (batchUrl p) now
    if !r1.1 then (0, r1.2, g, ItemOutcome.duplicate)
    else
      let normalized :=
        { p with
          url := if p.post_url.isSome && p.url.isNone then p.post_url else p.url }
      let r2 := process_post normalized config g today atts
      match r2.1 with
      | none =>
        (0, mark_activity_scraped r1.2 "linkedin" aid, r2.2,
          ItemOutcome.filteredOut)
      | some lead_data =>
        let r3 :=
          save_lead r1.2 "linkedin" (lead_data.activity_id.getD []) lead_data now
        (1, mark_activity_scraped r3.2 "linkedin" aid, r2.2, ItemOutcome.saved)

/-- Source: process_posts_batch.  The environment function gives each
item its three attempt outcomes.  Returns processed_count, the final
store and guard state, and the per-item outcome trace. -/
def process_posts_batch (config : Config) (now : PyStr) (today : Nat)
    (env : Nat → GptAttempt × GptAttempt × GptAttempt) :
    List RawPostDict → DB → GptState → Nat × DB × GptState × List ItemOutcome
  | [], db, g => (0, db, g, [])
  | p :: rest, db, g =>
    let r := process_batch_item config now today (env 0) p db g
    let rr :=
      process_posts_batch config now today (fun i => env (i + 1)) rest r.2.1 r.2.2.1
    (r.1 + rr.1, rr.2.1, rr.2.2.1, r.2.2.2 :: rr.2.2.2)

/-! Helper definitions and lemmas shared by the claim theorems. -/

/-- Iterate a function n times. -/
def applyN (f : α → α) : Nat → α → α
  | 0, x => x
  | n + 1, x => f (applyN f n x)

/-- A nonempty list has isEmpty false. -/
lemma isEmpty_false_of_ne_nil (l : List Nat) (h : l ≠ []) : l.isEmpty = false := by
  cases l with
  | nil => exact absurd rfl h
  | cons a t => rfl

/-- Lowercasing a code point twice is the same as doing it once. -/
lemma lowerCp_idem (c : Nat) : lowerCp (lowerCp c) = lowerCp c := by
  unfold lowerCp
  split_ifs <;> omega

/-- Lowercasing a string twice is the same as doing it once. -/
lemma pyLower_idem (s : PyStr) : pyLower (pyLower s) = pyLower s := by
  unfold pyLower
  rw [List.map_map]
  exact List.map_congr_left (fun c _ => lowerCp_idem c)

/-- Lowercasing preserves emptiness. -/
lemma pyLower_isEmpty (s : PyStr) : (pyLower s).isEmpty = s.isEmpty := by
  cases s <;> rfl

/-- Substring containment in the empty string holds only for the
empty needle. -/
lemma pyIn_nil (n : PyStr) : pyIn n [] = n.isEmpty := by
  cases n <;> rfl

/-- Iterated failure recording only increments the counter. -/
lemma applyN_record_failure (k : Nat) (s : GptState) :
    applyN record_gpt_failure k s = { s with failureCount := s.failureCount + k } := by
  induction k with
  | zero => rfl
  | succ n ih =>
    show record_gpt_failure (applyN record_gpt_failure n s) = _
    rw [ih]
    rfl

/-- An attempt that the retry loop counts as a failure: an API
exception, unparseable JSON, or a response failing validation. -/
def attemptFails : GptAttempt → Bool
  | GptAttempt.response r _ _ => !validate_gpt_response r
  | GptAttempt.badJson => true
  | GptAttempt.apiError _ => true

/-- The reason string of the fallback returned when the final attempt
fails in the given way. -/
def lastFailReason : GptAttempt → String
  | GptAttempt.response _ _ _ =>
    "API error after 3 attempts: GPT response failed validation"
  | GptAttempt.badJson => "Invalid JSON after 3 attempts"
  | GptAttempt.apiError msg => "API error after 3 attempts: " ++ msg

/-- A failing attempt that is not the last one records a failure and
passes control to the remaining attempts. -/
lemma gptLoop_fail_cons (model : String) (s : GptState) (a b : GptAttempt)
    (t : List GptAttempt) (h : attemptFails a = true) :
    gptLoop model s (a :: b :: t) =
      ((gptLoop model (record_gpt_failure s) (b :: t)).1,
       (gptLoop model (record_gpt_failure s) (b :: t)).2.1,
       (gptLoop model (record_gpt_failure s) (b :: t)).2.2 + 1) := by
  cases a with
  | response r p c =>
    have hv : validate_gpt_response r = false := by
      simpa [attemptFails] using h
    simp [gptLoop, hv]
  | badJson => simp [gptLoop]
  | apiError msg => simp [gptLoop]

/-- A failing final attempt records a failure and returns the fixed
fallback response. -/
lemma gptLoop_fail_last (model : String) (s : GptState) (a : GptAttempt)
    (h : attemptFails a = true) :
    gptLoop model s [a] =
      (create_fallback_response (lastFailReason a), record_gpt_failure s, 1) := by
  cases a with
  | response r p c =>
    have hv : validate_gpt_response r = false := by
      simpa [attemptFails] using h
    simp [gptLoop, hv, lastFailReason]
  | badJson => simp [gptLoop, lastFailReason]
  | apiError msg => simp [gptLoop, lastFailReason]

/-- Three failing attempts produce the fallback, three recorded
failures and three classifier calls. -/
lemma gptLoop_three_fail (model : String) (s : GptState) (a1 a2 a3 : GptAttempt)
    (h1 : attemptFails a1 = true) (h2 : attemptFails a2 = true)
    (h3 : attemptFails a3 = true) :
    gptLoop model s [a1, a2, a3] =
      (create_fallback_response (lastFailReason a3),
       record_gpt_failure (record_gpt_failure (record_gpt_failure s)), 3) := by
  rw [gptLoop_fail_cons model s a1 a2 [a3] h1,
    gptLoop_fail_cons model (record_gpt_failure s) a2 a3 [] h2,
    gptLoop_fail_last model (record_gpt_failure (record_gpt_failure s)) a3 h3]

/-- A closed circuit breaker lets the request through unchanged. -/
lemma check_breaker_closed (s : GptState) (h : s.failureCount < s.threshold) :
    check_gpt_circuit_breaker s = (false, s) := by
  simp [check_gpt_circuit_breaker, Nat.not_le.mpr h]

/-- When the circuit is closed, the daily gate open, and every attempt
fails, analyze_lead_with_gpt returns the fallback after three
classifier calls and three recorded failures. -/
lemma analyze_all_fail (g : GptState) (today : Nat) (config : Config)
    (a1 a2 a3 : GptAttempt)
    (hc : g.failureCount < g.threshold)
    (hd : (check_daily_gpt_limit g today).1 = false)
    (h1 : attemptFails a1 = true) (h2 : attemptFails a2 = true)
    (h3 : attemptFails a3 = true) :
    analyze_lead_with_gpt g today config a1 a2 a3 =
      (create_fallback_response (lastFailReason a3),
       record_gpt_failure (record_gpt_failure
         (record_gpt_failure (check_daily_gpt_limit g today).2)), 3) := by
  rcases hgen : check_daily_gpt_limit g today with ⟨b, s2⟩
  rw [hgen] at hd
  simp only at hd
  subst hd
  simp only [analyze_lead_with_gpt, check_breaker_closed g hc, hgen]
  exact gptLoop_three_fail (config.gpt_model.getD "gpt-4o-mini") s2 a1 a2 a3 h1 h2 h3

/-- The field values of every fallback response. -/
lemma fallback_fields (reason : String) :
    jget (create_fallback_response reason) "is_genuine_lead" = some (JVal.jbool true) ∧
    jget (create_fallback_response reason) "confidence_score" = some (JVal.jint 50) ∧
    jget (create_fallback_response reason) "lead_quality" = some (JVal.jstr "warm") ∧
    jget (create_fallback_response reason) "hiring_type" = some (JVal.jstr "unclear") ∧
    jget (create_fallback_response reason) "reasoning" =
      some (JVal.jstr ( "GPT analysis unavailable: " ++ reason)) ∧
    jget (create_fallback_response reason) "red_flags" =
      some (JVal.jstrList [ "GPT analysis unavailable"]) :=
  ⟨rfl, rfl, rfl, rfl, rfl, rfl⟩

/-- A validated classifier response used in concrete scenarios. -/
def sampleVerdict : JObj :=
  [ ( "is_genuine_lead", JVal.jbool true),
    ( "confidence_score", JVal.jint 92),
    ( "lead_quality", JVal.jstr "hot"),
    ( "hiring_type", JVal.jstr "agency"),
    ( "reasoning", JVal.jstr "Author explicitly asks for PR agency recommendations.")]

/-- C2: starting from a closed guard with failure count zero, the
breaker reports open exactly from the fifth consecutive recorded
failure on; an open breaker makes analyze_lead_with_gpt return the
fallback with zero classifier calls; the reset performed on a
validated success zeroes the counter and closes the circuit, and a
validated success inside analyze_lead_with_gpt indeed resets the
counter to zero. -/
theorem C2_circuit_breaker_threshold_and_reset :
    (∀ k : Nat,
      (check_gpt_circuit_breaker (applyN record_gpt_failure k initialGptState)).1 =
        decide (5 ≤ k)) ∧
    (∀ (today : Nat) (config : Config) (a1 a2 a3 : GptAttempt),
      analyze_lead_with_gpt (applyN record_gpt_failure 5 initialGptState) today
          config a1 a2 a3 =
        (create_fallback_response "Circuit breaker active",
         { initialGptState with failureCount := 5, circuitActive := true }, 0)) ∧
    (reset_gpt_circuit_breaker (applyN record_gpt_failure 5 initialGptState) =
        initialGptState ∧
      (check_gpt_circuit_breaker
        (reset_gpt_circuit_breaker
          (applyN record_gpt_failure 5 initialGptState))).1 = false) ∧
    ((analyze_lead_with_gpt (applyN record_gpt_failure 4 initialGptState) 0 {}
        (GptAttempt.response sampleVerdict 10 10) GptAttempt.badJson
        GptAttempt.badJson).2.1.failureCount = 0 ∧
      (analyze_lead_with_gpt (applyN record_gpt_failure 4 initialGptState) 0 {}
        (GptAttempt.response sampleVerdict 10 10) GptAttempt.badJson
        GptAttempt.badJson).2.1.circuitActive = false) := by
  refine ⟨?_, ?_, ⟨?_, ?_⟩, ?_⟩
  · intro k
    rw [applyN_record_failure]
    simp only [initialGptState, check_gpt_circuit_breaker]
    by_cases h : 5 ≤ k
    · simp [h]
    · simp [h]
  · intro today config a1 a2 a3
    rw [applyN_record_failure]
    rfl
  · rw [applyN_record_failure]
    rfl
  · rw [applyN_record_failure]
    rfl
  · rw [applyN_record_failure]
    constructor <;> decide

/-- C3: whenever the circuit is closed and the daily gate open but all
three retry attempts fail, in any combination of transport error,
invalid JSON and failed validation, the classifier returns the fixed
fallback verdict: lead flag true, confidence 50, quality warm,
hiring type unclear, a failure-description reasoning, and the single
red flag stating the analysis was unavailable. -/
theorem C3_exhausted_retries_fallback (g : GptState) (today : Nat)
    (config : Config) (a1 a2 a3 : GptAttempt)
    (hc : g.failureCount < g.threshold)
    (hd : (check_daily_gpt_limit g today).1 = false)
    (h1 : attemptFails a1 = true) (h2 : attemptFails a2 = true)
    (h3 : attemptFails a3 = true) :
    ∃ reason : String,
      (analyze_lead_with_gpt g today config a1 a2 a3).1 =
        create_fallback_response reason ∧
      jget (create_fallback_response reason) "is_genuine_lead" =
        some (JVal.jbool true) ∧
      jget (create_fallback_response reason) "confidence_score" =
        some (JVal.jint 50) ∧
      jget (create_fallback_response reason) "lead_quality" =
        some (JVal.jstr "warm") ∧
      jget (create_fallback_response reason) "hiring_type" =
        some (JVal.jstr "unclear") ∧
      jget (create_fallback_response reason) "reasoning" =
        some (JVal.jstr ( "GPT analysis unavailable: " ++ reason)) ∧
      jget (create_fallback_response reason) "red_flags" =
        some (JVal.jstrList [ "GPT analysis unavailable"]) := by
  refine ⟨lastFailReason a3, ?_, fallback_fields (lastFailReason a3)⟩
  rw [analyze_all_fail g today config a1 a2 a3 hc hd h1 h2 h3]

/-- Witness for C3 at a concrete run: a timeout, then invalid JSON,
then a response failing validation. -/
theorem C3_exhausted_retries_fallback_witness :
    initialGptState.failureCount < initialGptState.threshold ∧
    ∃ reason : String,
      (analyze_lead_with_gpt initialGptState 0 {} (GptAttempt.apiError "timeout")
          GptAttempt.badJson (GptAttempt.response [] 0 0)).1 =
        create_fallback_response reason ∧
      jget (create_fallback_response reason) "is_genuine_lead" =
        some (JVal.jbool true) ∧
      jget (create_fallback_response reason) "confidence_score" =
        some (JVal.jint 50) ∧
      jget (create_fallback_response reason) "lead_quality" =
        some (JVal.jstr "warm") ∧
      jget (create_fallback_response reason) "hiring_type" =
        some (JVal.jstr "unclear") ∧
      jget (create_fallback_response reason) "reasoning" =
        some (JVal.jstr ( "GPT analysis unavailable: " ++ reason)) ∧
      jget (create_fallback_response reason) "red_flags" =
        some (JVal.jstrList [ "GPT analysis unavailable"]) :=
  ⟨by decide,
    C3_exhausted_retries_fallback initialGptState 0 {}
      (GptAttempt.apiError "timeout") GptAttempt.badJson
      (GptAttempt.response [] 0 0) (by decide) (by decide) (by decide)
      (by decide) (by decide)⟩

/-- The daily-limit check leaves the failure counter, the circuit
flag and the run cost untouched. -/
lemma daily_check_preserves (g : GptState) (today : Nat) :
    (check_daily_gpt_limit g today).2.failureCount = g.failureCount ∧
    (check_daily_gpt_limit g today).2.circuitActive = g.circuitActive ∧
    (check_daily_gpt_limit g today).2.runCost = g.runCost := by
  unfold check_daily_gpt_limit
  dsimp only
  split_ifs <;> exact ⟨rfl, rfl, rfl⟩

/-- C7 counterexample: starting from four recorded failures with
threshold five, a request whose three attempts all raise API errors
performs three classifier calls, although the circuit-open condition
already holds after the first failure (the count reaches five, the
threshold).  The guard checks therefore run once per classification
request, not before every retry attempt as the claim states. -/
theorem C7_counterexample :
    (analyze_lead_with_gpt { initialGptState with failureCount := 4 } 0 {}
      (GptAttempt.apiError "boom") (GptAttempt.apiError "boom")
      (GptAttempt.apiError "boom")).2.2 = 3 ∧
    (analyze_lead_with_gpt { initialGptState with failureCount := 4 } 0 {}
      (GptAttempt.apiError "boom") (GptAttempt.apiError "boom")
      (GptAttempt.apiError "boom")).2.1.failureCount = 7 ∧
    ({ initialGptState with failureCount := 4 } : GptState).threshold = 5 ∧
    (check_gpt_circuit_breaker { initialGptState with failureCount := 5 }).1 = true := by
  decide

/-- C7 amended: before every classification request, not before every
retry attempt within it, the circuit-open check is queried first and
the daily-limit check second; when either triggers, the request
returns the fallback verdict with zero classifier calls, consuming no
retry attempt, and the daily gate changes neither the failure counter
nor the circuit flag nor the run cost; when both gates pass, the three
retry attempts proceed without re-querying the checks even as
intermediate failures accumulate. -/
theorem C7_request_level_guard_checks (g : GptState) (today : Nat)
    (config : Config) (a1 a2 a3 : GptAttempt) :
    (g.threshold ≤ g.failureCount →
      analyze_lead_with_gpt g today config a1 a2 a3 =
        (create_fallback_response "Circuit breaker active",
         { g with circuitActive := true }, 0)) ∧
    (g.failureCount < g.threshold →
      (check_daily_gpt_limit g today).1 = true →
      analyze_lead_with_gpt g today config a1 a2 a3 =
        (create_fallback_response "Daily limit reached",
         (check_daily_gpt_limit g today).2, 0) ∧
      (check_daily_gpt_limit g today).2.failureCount = g.failureCount ∧
      (check_daily_gpt_limit g today).2.circuitActive = g.circuitActive ∧
      (check_daily_gpt_limit g today).2.runCost = g.runCost) ∧
    (g.failureCount < g.threshold →
      (check_daily_gpt_limit g today).1 = false →
      attemptFails a1 = true → attemptFails a2 = true → attemptFails a3 = true →
      (analyze_lead_with_gpt g today config a1 a2 a3).2.2 = 3) := by
  refine ⟨?_, ?_, ?_⟩
  · intro h
    have hcb : check_gpt_circuit_breaker g = (true, { g with circuitActive := true }) := by
      simp [check_gpt_circuit_breaker, h]
    simp only [analyze_lead_with_gpt, hcb]
  · intro h hb
    refine ⟨?_, (daily_check_preserves g today).1,
      (daily_check_preserves g today).2.1, (daily_check_preserves g today).2.2⟩
    rcases hgen : check_daily_gpt_limit g today with ⟨b, s2⟩
    rw [hgen] at hb
    simp only at hb
    subst hb
    simp only [analyze_lead_with_gpt, check_breaker_closed g h, hgen]
  · intro h hb h1 h2 h3
    rw [analyze_all_fail g today config a1 a2 a3 h hb h1 h2 h3]

/-- Witness for C7 amended: an open circuit short-circuits a concrete
request to the fallback with zero classifier calls. -/
theorem C7_request_level_guard_checks_witness :
    ({ initialGptState with failureCount := 5 } : GptState).threshold ≤
      ({ initialGptState with failureCount := 5 } : GptState).failureCount ∧
    analyze_lead_with_gpt { initialGptState with failureCount := 5 } 0 {}
        GptAttempt.badJson GptAttempt.badJson GptAttempt.badJson =
      (create_fallback_response "Circuit breaker active",
       { initialGptState with failureCount := 5, circuitActive := true }, 0) :=
  ⟨by decide,
    (C7_request_level_guard_checks { initialGptState with failureCount := 5 } 0 {}
      GptAttempt.badJson GptAttempt.badJson GptAttempt.badJson).1 (by decide)⟩

/-- One permitted-and-recorded classifier request at guard level: the
daily gate is queried, and when it lets the request through the
successful call is recorded, exactly as the success path of
analyze_lead_with_gpt drives check_daily_gpt_limit and
record_gpt_call. -/
def daily_request (today : Nat) (s : GptState) : Bool × GptState :=
  let r := check_daily_gpt_limit s today
  if r.1 then (true, r.2) else (false, record_gpt_call r.2)

/-- The guard state reached after k recorded requests on date d with
daily limit N. -/
def dailyStateAfter (N d k : Nat) : GptState :=
  applyN (fun s => (daily_request d s).2) k { initialGptState with dailyLimit := N }

/-- The explicit form of that state: fresh guard with limit N, count k
and last reset on date d. -/
def dailyGuardState (N d k : Nat) : GptState :=
  { initialGptState with dailyLimit := N, dailyCount := k, lastResetDate := some d }

/-- C4 counterexample: with daily limit one, a request whose three
attempts return invalid JSON performs three classifier calls but
leaves the daily counter at zero, so the second request of the same
date again reaches the classifier instead of short-circuiting: failed
attempts are not counted against the daily cap, hence more than N
attempts can be permitted per date. -/
theorem C4_counterexample :
    (analyze_lead_with_gpt { initialGptState with dailyLimit := 1 } 0 {}
      GptAttempt.badJson GptAttempt.badJson GptAttempt.badJson).2.2 = 3 ∧
    (analyze_lead_with_gpt { initialGptState with dailyLimit := 1 } 0 {}
      GptAttempt.badJson GptAttempt.badJson GptAttempt.badJson).2.1.dailyCount = 0 ∧
    (analyze_lead_with_gpt
      (analyze_lead_with_gpt { initialGptState with dailyLimit := 1 } 0 {}
        GptAttempt.badJson GptAttempt.badJson GptAttempt.badJson).2.1 0 {}
      GptAttempt.badJson GptAttempt.badJson GptAttempt.badJson).2.2 = 3 := by
  decide

/-- C4 amended: with daily limit N, exactly N validated classifier
calls are recorded per calendar date: the first N recorded requests on
a date pass the gate, the next request on that date is blocked and
analyze_lead_with_gpt short-circuits it to the fallback verdict with
zero classifier calls, and the first request attempted on a different
date resets the counter to zero and passes again. -/
theorem C4_daily_quota (N d e : Nat) (hN : 0 < N) (hde : d ≠ e) :
    (∀ k, k < N → (daily_request d (dailyStateAfter N d k)).1 = false) ∧
    (dailyStateAfter N d N).dailyCount = N ∧
    (daily_request d (dailyStateAfter N d N)).1 = true ∧
    (∀ (config : Config) (a1 a2 a3 : GptAttempt),
      analyze_lead_with_gpt (dailyStateAfter N d N) d config a1 a2 a3 =
        (create_fallback_response "Daily limit reached",
         dailyStateAfter N d N, 0)) ∧
    ((check_daily_gpt_limit (dailyStateAfter N d N) e).2.dailyCount = 0 ∧
     (daily_request e (dailyStateAfter N d N)).1 = false ∧
     (daily_request e (dailyStateAfter N d N)).2.dailyCount = 1) := by
  have h0 : ¬ N ≤ 0 := by omega
  have hbase : daily_request d { initialGptState with dailyLimit := N } =
      (false, dailyGuardState N d 1) := by
    simp [daily_request, check_daily_gpt_limit, record_gpt_call, dailyGuardState,
      initialGptState, h0]
  have hstep : ∀ k, k < N →
      daily_request d (dailyGuardState N d k) = (false, dailyGuardState N d (k + 1)) := by
    intro k hk
    simp [daily_request, check_daily_gpt_limit, record_gpt_call, dailyGuardState,
      initialGptState, Nat.not_le.mpr hk]
  have hT : ∀ k, k + 1 ≤ N → dailyStateAfter N d (k + 1) = dailyGuardState N d (k + 1) := by
    intro k
    induction k with
    | zero =>
      intro h
      show (daily_request d (dailyStateAfter N d 0)).2 = _
      rw [show dailyStateAfter N d 0 = { initialGptState with dailyLimit := N } from rfl,
        hbase]
    | succ n ih =>
      intro h
      show (daily_request d (dailyStateAfter N d (n + 1))).2 = _
      rw [ih (by omega), hstep (n + 1) (by omega)]
  refine ⟨?_, ?_, ?_, ?_, ?_, ?_, ?_⟩
  · intro k hk
    cases k with
    | zero =>
      show (daily_request d { initialGptState with dailyLimit := N }).1 = false
      rw [hbase]
    | succ j =>
      rw [hT j (by omega), hstep (j + 1) hk]
  · rcases N with _ | m
    · exact absurd hN (by omega)
    · rw [hT m (by omega)]
      rfl
  · rcases N with _ | m
    · exact absurd hN (by omega)
    · rw [hT m (by omega)]
      simp [daily_request, check_daily_gpt_limit, dailyGuardState, initialGptState]
  · intro config a1 a2 a3
    rcases N with _ | m
    · exact absurd hN (by omega)
    · rw [hT m (by omega)]
      have hcb := check_breaker_closed (dailyGuardState (m + 1) d (m + 1))
        (by show (0 : Nat) < 5; decide)
      have hdc : check_daily_gpt_limit (dailyGuardState (m + 1) d (m + 1)) d =
          (true, dailyGuardState (m + 1) d (m + 1)) := by
        simp [check_daily_gpt_limit, dailyGuardState, initialGptState]
      simp only [analyze_lead_with_gpt, hcb, hdc]
  · rcases N with _ | m
    · exact absurd hN (by omega)
    · rw [hT m (by omega)]
      simp [check_daily_gpt_limit, dailyGuardState, initialGptState, hde]
  · rcases N with _ | m
    · exact absurd hN (by omega)
    · rw [hT m (by omega)]
      simp [daily_request, check_daily_gpt_limit, record_gpt_call, dailyGuardState,
        initialGptState, hde, h0]
  · rcases N with _ | m
    · exact absurd hN (by omega)
    · rw [hT m (by omega)]
      simp [daily_request, check_daily_gpt_limit, record_gpt_call, dailyGuardState,
        initialGptState, hde, h0]

/-- Witness for C4 amended: with limit two, the third request of the
date is blocked. -/
theorem C4_daily_quota_witness :
    0 < 2 ∧ (0 : Nat) ≠ 1 ∧
    (daily_request 0 (dailyStateAfter 2 0 2)).1 = true :=
  ⟨by decide, by decide, (C4_daily_quota 2 0 1 (by decide) (by decide)).2.2.1⟩

/-- After any save_activity_id call the key is present. -/
lemma hasActivity_save (db : DB) (pl : String) (aid : PyStr)
    (u : Option PyStr) (now : PyStr) :
    hasActivity (save_activity_id db pl aid u now).2 pl aid = true := by
  unfold save_activity_id
  cases hb : hasActivity db pl aid with
  | true => simpa using hb
  | false =>
    simp only [Bool.false_eq_true, if_false]
    simp [hasActivity, List.any_append]

/-- Marking a present key sets its scraped flag. -/
lemma any_map_mark (l : List ActivityRow) (pl : String) (aid : PyStr)
    (h : l.any (fun a => a.platform == pl && a.activity_id == aid) = true) :
    (l.map (fun a =>
        if a.platform == pl && a.activity_id == aid then { a with scraped := true }
        else a)).any
      (fun a => a.platform == pl && a.activity_id == aid && a.scraped) = true := by
  induction l with
  | nil => simp at h
  | cons x t ih =>
    simp only [List.any_cons, Bool.or_eq_true] at h
    simp only [List.map_cons, List.any_cons, Bool.or_eq_true]
    rcases h with h | h
    · left
      rw [if_pos h]
      simp only [Bool.and_eq_true] at h
      simp [h.1, h.2]
    · right
      exact ih h

/-- Marking a registered key leaves it registered and scraped. -/
lemma scraped_after_mark (db : DB) (pl : String) (aid : PyStr)
    (h : hasActivity db pl aid = true) :
    activityScraped (mark_activity_scraped db pl aid) pl aid = true := by
  unfold activityScraped mark_activity_scraped
  exact any_map_mark db.activity_ids pl aid h

/-- validate_post does not read the url key the batch loop may add. -/
lemma validate_post_ignores_url (p : RawPostDict) (x : Option PyStr) :
    validate_post { p with url := x } = validate_post p := rfl

/-- One batch iteration on a newly registered item that fails field
validation: the id is registered, process_post declines before any
classifier activity, and the item is marked scraped.  The resolved id
may come from the explicit field or from the URL; in the latter case
the loop never writes the extracted id back into the post dictionary,
so validation can fail precisely on the missing activity_id key. -/
lemma batch_item_invalid (config : Config) (now : PyStr) (today : Nat)
    (atts : GptAttempt × GptAttempt × GptAttempt) (p : RawPostDict)
    (db : DB) (g : GptState) (aid : PyStr)
    (hres : resolve_activity_id p = IdResolution.ok aid)
    (hfresh : hasActivity db "linkedin" aid = false)
    (hinv : validate_post p = false) :
    process_batch_item config now today atts p db g =
      (0,
       mark_activity_scraped
         { db with
           activity_ids :=
             db.activity_ids ++
               [{ platform := "linkedin", activity_id := aid,
                  original_url := batchUrl p, discovered_at := now,
                  scraped := false }] } "linkedin" aid,
       g, ItemOutcome.filteredOut) := by
  have hsve : save_activity_id db "linkedin" aid (batchUrl p) now =
      (true,
       { db with
         activity_ids :=
           db.activity_ids ++
             [{ platform := "linkedin", activity_id := aid,
                original_url := batchUrl p, discovered_at := now,
                scraped := false }] }) := by
    simp [save_activity_id, hfresh]
  simp only [process_batch_item, hres, hsve, process_post,
    validate_post_ignores_url, hinv, Bool.not_false, if_true, Bool.not_true,
    Bool.false_eq_true, if_false]

/-- C5 amended: a batch item whose external id is newly registered,
whether the id came from the explicit field or was derived from the
post URL, but which is missing a required field, is not saved as a
lead and its processing stops without touching the guard, but the
pipeline does call mark_done on it, exactly as for filtered and
rejected items: its done flag becomes true, so it is not eligible for
reprocessing. -/
theorem C5_invalid_item_marked_done (db : DB) (g : GptState) (config : Config)
    (now : PyStr) (today : Nat)
    (env : Nat → GptAttempt × GptAttempt × GptAttempt) (p : RawPostDict)
    (aid : PyStr)
    (hres : resolve_activity_id p = IdResolution.ok aid)
    (hfresh : hasActivity db "linkedin" aid = false)
    (hinv : validate_post p = false) :
    (process_posts_batch config now today env [p] db g).1 = 0 ∧
    (process_posts_batch config now today env [p] db g).2.1.leads = db.leads ∧
    (process_posts_batch config now today env [p] db g).2.2.1 = g ∧
    (process_posts_batch config now today env [p] db g).2.2.2 =
      [ItemOutcome.filteredOut] ∧
    activityScraped (process_posts_batch config now today env [p] db g).2.1
      "linkedin" aid = true := by
  have hitem := batch_item_invalid config now today (env 0) p db g aid hres hfresh hinv
  have hb : process_posts_batch config now today env [p] db g =
      (0,
       mark_activity_scraped
         { db with
           activity_ids :=
             db.activity_ids ++
               [{ platform := "linkedin", activity_id := aid,
                  original_url := batchUrl p, discovered_at := now,
                  scraped := false }] } "linkedin" aid,
       g, [ItemOutcome.filteredOut]) := by
    simp only [process_posts_batch, hitem]
  rw [hb]
  refine ⟨rfl, rfl, rfl, rfl, ?_⟩
  apply scraped_after_mark
  simp [hasActivity, List.any_append]

/-- The concrete invalid post of the C5 scenario: registered id and
url present, but the required text field missing. -/
def invalidPost : RawPostDict :=
  { activity_id := some (pyOfString "3333333333333333333")
    post_url := some (pyOfString "https://a/3")
    author_name := some (pyOfString "C") }

/-- An environment whose classifier calls all return invalid JSON. -/
def badEnv : Nat → GptAttempt × GptAttempt × GptAttempt :=
  fun _ => (GptAttempt.badJson, GptAttempt.badJson, GptAttempt.badJson)

/-- C5 counterexample: running the batch on the invalid post leaves
its activity record with scraped = true, not false as the claim
states, and saves no lead. -/
theorem C5_counterexample :
    ((process_posts_batch {} [] 0 badEnv [invalidPost] {} initialGptState).2.1.activity_ids.map
      (fun a => (a.activity_id, a.scraped))) =
      [(pyOfString "3333333333333333333", true)] ∧
    (process_posts_batch {} [] 0 badEnv [invalidPost] {} initialGptState).2.1.leads = [] := by
  decide

/-- A post with no activity_id key at all: its id is derived from the
post URL, it is registered under that extracted id, and field
validation then fails precisely on the missing activity_id. -/
def urlOnlyInvalidPost : RawPostDict :=
  { post_url :=
      some (pyOfString "https://www.linkedin.com/posts/user-4444444444444444444-abcd")
    text := some (pyOfString "Looking for a pr agency")
    author_name := some (pyOfString "D") }

/-- Witness for C5 amended at a post whose id comes from the URL and
which is invalid exactly because the activity_id field is missing. -/
theorem C5_invalid_item_marked_done_witness :
    resolve_activity_id urlOnlyInvalidPost =
      IdResolution.ok (pyOfString "4444444444444444444") ∧
    validate_post urlOnlyInvalidPost = false ∧
    activityScraped
      (process_posts_batch {} [] 0 badEnv [urlOnlyInvalidPost] {} initialGptState).2.1
      "linkedin" (pyOfString "4444444444444444444") = true :=
  ⟨by decide, by decide,
    (C5_invalid_item_marked_done {} initialGptState {} [] 0 badEnv urlOnlyInvalidPost
      (pyOfString "4444444444444444444") (by decide) (by decide)
      (by decide)).2.2.2.2⟩

/-- C6: save_activity_id returns true exactly on the call that first
registers a (platform, id) key; with the key present it returns false
and leaves the store unchanged; after any call the key is present; and
save_lead never duplicates a post id, so at most one lead row is ever
created for a key. -/
theorem C6_register_if_new_idempotent (db : DB) (pl : String) (aid : PyStr)
    (u : Option PyStr) (now : PyStr) :
    (hasActivity db pl aid = false → (save_activity_id db pl aid u now).1 = true) ∧
    (hasActivity db pl aid = true → save_activity_id db pl aid u now = (false, db)) ∧
    hasActivity (save_activity_id db pl aid u now).2 pl aid = true ∧
    (∀ (pl2 : String) (pid : PyStr) (data : LeadDict) (now2 : PyStr),
      hasLeadPostId db pid = true → save_lead db pl2 pid data now2 = (false, db)) ∧
    (∀ (pl2 : String) (pid : PyStr) (data : LeadDict) (now2 : PyStr),
      (db.leads.map (fun r => r.post_id)).Nodup →
      (((save_lead db pl2 pid data now2).2.leads.map (fun r => r.post_id)).Nodup)) := by
  refine ⟨?_, ?_, hasActivity_save db pl aid u now, ?_, ?_⟩
  · intro h
    simp [save_activity_id, h]
  · intro h
    simp [save_activity_id, h]
  · intro pl2 pid data now2 h
    simp [save_lead, h]
  · intro pl2 pid data now2 hnd
    unfold save_lead
    by_cases h : hasLeadPostId db pid
    · simp [h, hnd]
    · have hnotin : pid ∉ db.leads.map (fun r => r.post_id) := by
        intro hmem
        rw [List.mem_map] at hmem
        rcases hmem with ⟨r, hr, hrp⟩
        have hany : hasLeadPostId db pid = true := by
          unfold hasLeadPostId
          rw [List.any_eq_true]
          exact ⟨r, hr, by simp [hrp]⟩
        exact h hany
      simp [h, List.map_append, List.nodup_append, hnd, hnotin]

/-- Witness for C6 on the empty store. -/
theorem C6_register_if_new_idempotent_witness :
    hasActivity {} "linkedin" (pyOfString "1111111111111111111") = false ∧
    (save_activity_id {} "linkedin" (pyOfString "1111111111111111111") none []).1 = true :=
  ⟨by decide,
    (C6_register_if_new_idempotent {} "linkedin" (pyOfString "1111111111111111111")
      none []).1 (by decide)⟩

/-- C10: the leads table is unique on the external post id alone, not
on the (platform, post_id) pair: when a lead with post id x exists
under platform p1, save_lead under any platform p2 inserts nothing,
returns false and leaves the store unchanged. -/
theorem C10_lead_unique_on_post_id_alone (db : DB) (p1 p2 : String) (x : PyStr)
    (data : LeadDict) (now : PyStr)
    (h : ∃ r ∈ db.leads, r.platform = p1 ∧ r.post_id = x) :
    save_lead db p2 x data now = (false, db) := by
  have hx : hasLeadPostId db x = true := by
    unfold hasLeadPostId
    rw [List.any_eq_true]
    rcases h with ⟨r, hr, _, hpid⟩
    exact ⟨r, hr, by simp [hpid]⟩
  simp [save_lead, hx]

/-- A stored lead row used by the C10 witness. -/
def storedLeadRow : LeadsRow :=
  { platform := "linkedin"
    post_id := pyOfString "7380301291354263553"
    author_name := none
    author_handle := none
    author_title := none
    company_name := none
    post_content := none
    post_url := none
    budget_mention := none
    created_at := none
    scraped_at := []
    matched_keywords := none
    matched_roles := none
    matched_categories := none
    raw_data := none }

/-- Witness for C10: a post id stored under linkedin blocks the same
post id under twitter, leaving the store unchanged. -/
theorem C10_lead_unique_on_post_id_alone_witness :
    save_lead { leads := [storedLeadRow] } "twitter"
        (pyOfString "7380301291354263553") {} [] =
      (false, { leads := [storedLeadRow] }) :=
  C10_lead_unique_on_post_id_alone { leads := [storedLeadRow] } "linkedin" "twitter"
    (pyOfString "7380301291354263553") {} []
    ⟨storedLeadRow, by simp, rfl, rfl⟩

/-- C9: company extraction from an author title tries the word at
separator, then the at-sign, then the pipe, in that priority order,
returns the trimmed text after the first separator that matches, and
returns none when none matches; the given concrete titles and the
empty and absent titles behave as the claim states. -/
theorem C9_company_extraction_separators :
    extract_company_from_title (some (pyOfString "CMO at Acme Corp")) =
      some (pyOfString "Acme Corp") ∧
    extract_company_from_title (some (pyOfString "Marketing Director @ Beauty Co")) =
      some (pyOfString "Beauty Co") ∧
    extract_company_from_title (some (pyOfString "VP Marketing | Food Inc")) =
      some (pyOfString "Food Inc") ∧
    extract_company_from_title (some (pyOfString "")) = none ∧
    extract_company_from_title none = none ∧
    extract_company_from_title (some (pyOfString "VP at Acme | Beta")) =
      some (pyOfString "Acme | Beta") ∧
    (∀ t : PyStr, findAt (pyStrip t) = none →
      (pyStrip t).contains 64 = false → (pyStrip t).contains 124 = false →
      extract_company_from_title (some t) = none) := by
  refine ⟨by decide, by decide, by decide, by decide, rfl, by decide, ?_⟩
  intro t h1 h2 h3
  have h2e : List.elem 64 (pyStrip t) = false := h2
  have h3e : List.elem 124 (pyStrip t) = false := h3
  have h2m : ¬ (64 ∈ pyStrip t) := by
    intro hm
    exact Bool.false_ne_true (h2e ▸ List.elem_eq_true_of_mem hm)
  have h3m : ¬ (124 ∈ pyStrip t) := by
    intro hm
    exact Bool.false_ne_true (h3e ▸ List.elem_eq_true_of_mem hm)
  by_cases ht : t = []
  · subst ht
    rfl
  · have hA : t.isEmpty = false := isEmpty_false_of_ne_nil t ht
    by_cases hst : pyStrip t = []
    · simp only [extract_company_from_title]
      rw [hA]
      simp [hst]
    · have hB : (pyStrip t).isEmpty = false := isEmpty_false_of_ne_nil _ hst
      simp only [extract_company_from_title]
      rw [hA]
      simp only [Bool.false_eq_true, if_false, hB]
      rw [h1]
      simp [List.elem_iff, h2m, h3m]

/-- Witness for C9 on a title containing no separator at all. -/
theorem C9_company_extraction_separators_witness :
    findAt (pyStrip (pyOfString "Chief Executive")) = none ∧
    extract_company_from_title (some (pyOfString "Chief Executive")) = none :=
  ⟨by decide,
    C9_company_extraction_separators.2.2.2.2.2.2 (pyOfString "Chief Executive")
      (by decide) (by decide) (by decide)⟩

/-- C8 counterexample: with empty post content but an author title
containing a configured role term, the matcher returns a nonempty role
subset, refuting the claim that empty content yields three empty
subsets (roles and categories are also matched against the title). -/
theorem C8_counterexample :
    (detect_matched_filters [] (pyOfString "CMO of Acme")
      ⟨[], [pyOfString "CMO"], [], none, none⟩).matched_roles =
      [pyOfString "CMO"] := by
  decide

/-- C8 amended: the matcher performs case-insensitive substring
containment of intent keywords against the content and of role and
category terms against both the content and the title; each returned
subset is a sublist of (so preserves the order of) the configured
list; lowercasing an input changes nothing; the claimed concrete
example holds; and empty content together with an empty title yields
three empty subsets provided every configured term is nonempty after
quote stripping. -/
theorem C8_keyword_matcher_properties :
    detect_matched_filters
        (pyOfString "Looking for a PR agency for our Beauty brand") []
        ⟨[pyOfString "pr agency"], [pyOfString "CMO"], [pyOfString "Beauty"],
          none, none⟩ =
      ⟨[pyOfString "pr agency"], [], [pyOfString "Beauty"]⟩ ∧
    (∀ (c t : PyStr) (config : Config),
      List.Sublist (detect_matched_filters c t config).matched_keywords
        config.keywords ∧
      List.Sublist (detect_matched_filters c t config).matched_roles
        config.job_titles ∧
      List.Sublist (detect_matched_filters c t config).matched_categories
        config.industries) ∧
    (∀ (c t : PyStr) (config : Config),
      detect_matched_filters (pyLower c) t config =
        detect_matched_filters c t config ∧
      detect_matched_filters c (pyLower t) config =
        detect_matched_filters c t config) ∧
    (∀ config : Config,
      (∀ k ∈ config.keywords, stripQuotes k ≠ []) →
      (∀ r ∈ config.job_titles, r ≠ []) →
      (∀ cat ∈ config.industries, cat ≠ []) →
      detect_matched_filters [] [] config = ⟨[], [], []⟩) := by
  refine ⟨by decide, ?_, ?_, ?_⟩
  · intro c t config
    exact ⟨List.filter_sublist config.keywords, List.filter_sublist config.job_titles,
      List.filter_sublist config.industries⟩
  · intro c t config
    constructor
    · simp only [detect_matched_filters, pyLower_idem]
    · simp only [detect_matched_filters, pyLower_isEmpty, pyLower_idem]
  · intro config hk hr hc
    have hgoal : detect_matched_filters [] [] config =
        ⟨config.keywords.filter
            (fun keyword => pyIn (pyLower (stripQuotes keyword)) []),
          config.job_titles.filter
            (fun role => pyIn (pyLower role) [] || pyIn (pyLower role) []),
          config.industries.filter
            (fun category => pyIn (pyLower category) [] || pyIn (pyLower category) [])⟩ :=
      rfl
    rw [hgoal]
    simp only [FilterMatch.mk.injEq]
    refine ⟨?_, ?_, ?_⟩
    · rw [List.filter_eq_nil_iff]
      intro k hkm
      rw [pyIn_nil, pyLower_isEmpty, isEmpty_false_of_ne_nil _ (hk k hkm)]
      simp
    · rw [List.filter_eq_nil_iff]
      intro r hrm
      rw [pyIn_nil, pyLower_isEmpty, isEmpty_false_of_ne_nil _ (hr r hrm)]
      simp
    · rw [List.filter_eq_nil_iff]
      intro cat hcm
      rw [pyIn_nil, pyLower_isEmpty, isEmpty_false_of_ne_nil _ (hc cat hcm)]
      simp

/-- Witness for C8 amended on a concrete nonempty configuration. -/
theorem C8_keyword_matcher_properties_witness :
    (∀ k ∈ ([pyOfString "pr agency"] : List PyStr), stripQuotes k ≠ []) ∧
    detect_matched_filters [] []
        ⟨[pyOfString "pr agency"], [pyOfString "CMO"], [pyOfString "Beauty"],
          none, none⟩ =
      ⟨[], [], []⟩ :=
  ⟨by decide,
    C8_keyword_matcher_properties.2.2.2
      ⟨[pyOfString "pr agency"], [pyOfString "CMO"], [pyOfString "Beauty"],
        none, none⟩ (by decide) (by decide) (by decide)⟩

/-- The configuration of the C1 scenario: classification billed
against gpt-4o. -/
def costRunConfig : Config :=
  { keywords := [pyOfString "pr agency"], gpt_model := some "gpt-4o" }

/-- A validated classifier response whose token usage costs three
dollars at the gpt-4o input rate. -/
def costRunAttempt : GptAttempt := GptAttempt.response sampleVerdict 1200000 0

/-- Every attempt of every item returns that response. -/
def costRunEnv : Nat → GptAttempt × GptAttempt × GptAttempt :=
  fun _ => (costRunAttempt, costRunAttempt, costRunAttempt)

/-- First post of the C1 scenario. -/
def costRunPost1 : RawPostDict :=
  { activity_id := some (pyOfString "1111111111111111111")
    post_url := some (pyOfString "https://a/1")
    text := some (pyOfString "Looking for a pr agency")
    author_name := some (pyOfString "A") }

/-- Second post of the C1 scenario. -/
def costRunPost2 : RawPostDict :=
  { activity_id := some (pyOfString "2222222222222222222")
    post_url := some (pyOfString "https://a/2")
    text := some (pyOfString "Looking for a pr agency")
    author_name := some (pyOfString "B") }

/-- C1: the run-cost ceiling does not terminate the run.  With the
five-dollar limit, the first item costs three dollars and succeeds;
every attempt of the second item pushes the accumulator past the
limit, so track_gpt_cost raises, but the generic exception handler of
the retry loop records each raise as a classifier failure, the item
degrades to the fallback verdict and is saved, and the batch finishes
with both items processed, twelve dollars of accumulated cost, three
recorded failures, and no aborted outcome of any kind. -/
theorem C1_cost_ceiling_does_not_abort_run :
    (process_posts_batch costRunConfig [] 0 costRunEnv [costRunPost1, costRunPost2]
      {} initialGptState).1 = 2 ∧
    (process_posts_batch costRunConfig [] 0 costRunEnv [costRunPost1, costRunPost2]
      {} initialGptState).2.2.2 = [ItemOutcome.saved, ItemOutcome.saved] ∧
    (process_posts_batch costRunConfig [] 0 costRunEnv [costRunPost1, costRunPost2]
      {} initialGptState).2.2.1.runCost = 12000000000 ∧
    (process_posts_batch costRunConfig [] 0 costRunEnv [costRunPost1, costRunPost2]
      {} initialGptState).2.2.1.runCostLimit = 5000000000 ∧
    (process_posts_batch costRunConfig [] 0 costRunEnv [costRunPost1, costRunPost2]
      {} initialGptState).2.1.leads.length = 2 ∧
    (process_posts_batch costRunConfig [] 0 costRunEnv [costRunPost1, costRunPost2]
      {} initialGptState).2.2.1.failureCount = 3 := by
  decide

end LeadMonitor
